import Mathlib

/-!
Verification development for the Moreau Arena combat simulator
(companion repository, `simulator/` package).

The Python source is shallowly embedded:
* machine integers and Python ints are `Nat`/`Int` (with explicit `% 2^w`
  masks where the source masks);
* Python floats are modelled as exact rationals `ℚ`;
* fallible code (functions that `raise`) returns `Except String _`;
* `dataclasses.replace` creates a fresh Python object.  Object identity
  (Python `is`), which the grid relies on, is modelled by an `objId : ℕ`
  field on `Creature`; every embedded `dataclasses.replace` goes through
  `bump`, which allocates a fresh id (ids of side "a" objects are even,
  side "b" odd, and strictly increase, so ids never collide).

Source files embedded: `simulator/seed.py`, `simulator/animals.py`,
`simulator/grid.py`, `simulator/abilities.py`, `simulator/engine.py`,
and the build validation of `simulator/__main__.py`.
-/

namespace Arena

/-! ## SHA-256 over byte lists (used by `simulator/seed.py`)

`hashlib.sha256` on the packed big-endian byte strings.  Bytes are `Nat`
values; every produced byte is reduced `% 256` so digest bytes are
provably in range. -/

def w32 (n : ℕ) : ℕ := n % 2 ^ 32

def rotr32 (k n : ℕ) : ℕ := w32 (n / 2 ^ k + n % 2 ^ k * 2 ^ (32 - k))

def shr32 (k n : ℕ) : ℕ := n / 2 ^ k

def bsig0 (x : ℕ) : ℕ := (rotr32 2 x).xor ((rotr32 13 x).xor (rotr32 22 x))

def bsig1 (x : ℕ) : ℕ := (rotr32 6 x).xor ((rotr32 11 x).xor (rotr32 25 x))

def ssig0 (x : ℕ) : ℕ := (rotr32 7 x).xor ((rotr32 18 x).xor (shr32 3 x))

def ssig1 (x : ℕ) : ℕ := (rotr32 17 x).xor ((rotr32 19 x).xor (shr32 10 x))

def chf (x y z : ℕ) : ℕ := (x.land y).xor ((x.xor (2 ^ 32 - 1)).land z)

def majf (x y z : ℕ) : ℕ := (x.land y).xor ((x.land z).xor (y.land z))

/-- The first 64 primes, whose roots seed the SHA-256 constants. -/
def shaPrimes : List ℕ :=
  [2, 3, 5, 7, 11, 13, 17, 19, 23, 29, 31, 37, 41, 43, 47, 53,
   59, 61, 67, 71, 73, 79, 83, 89, 97, 101, 103, 107, 109, 113, 127, 131,
   137, 139, 149, 151, 157, 163, 167, 173, 179, 181, 191, 193, 197, 199,
   211, 223, 227, 229, 233, 239, 241, 251, 257, 263, 269, 271, 277, 281,
   283, 293, 307, 311]

/-- Integer cube root by binary search over 36 bits (enough for the
arguments used here, which stay below `2 ^ 105`). -/
def icbrt (n : ℕ) : ℕ :=
  (List.range 36).foldl (fun r i =>
    let cand := r + 2 ^ (35 - i)
    if cand ^ 3 ≤ n then cand else r) 0

/-- Round constants: the first 32 fractional bits of the cube roots of
the first 64 primes. -/
def shaK : List ℕ :=
  shaPrimes.map (fun p => icbrt (p * 2 ^ 96) % 2 ^ 32)

/-- Initial hash state: the first 32 fractional bits of the square
roots of the first 8 primes. -/
def shaH0 : List ℕ :=
  (shaPrimes.take 8).map (fun p => Nat.sqrt (p * 2 ^ 64) % 2 ^ 32)

/-- Big-endian byte decomposition of a natural number (`struct.pack`). -/
def bytesBE (numBytes : ℕ) (n : ℕ) : List ℕ :=
  (List.range numBytes).map (fun i => n / 256 ^ (numBytes - 1 - i) % 256)

def shaPad (msg : List ℕ) : List ℕ :=
  let len := msg.length
  let padZeros := (64 + 55 - len % 64) % 64
  msg ++ 128 :: List.replicate padZeros 0 ++ bytesBE 8 (8 * len)

def wordsOfBytes : List ℕ → List ℕ
  | b0 :: b1 :: b2 :: b3 :: rest =>
      (((b0 * 256 + b1) * 256 + b2) * 256 + b3) :: wordsOfBytes rest
  | _ => []

def shaExtendStep (w : List ℕ) : List ℕ :=
  let n := w.length
  w ++ [w32 (ssig1 (w.getD (n - 2) 0) + w.getD (n - 7) 0 +
             ssig0 (w.getD (n - 15) 0) + w.getD (n - 16) 0)]

def shaSchedule (w : List ℕ) : List ℕ :=
  (List.range 48).foldl (fun acc _ => shaExtendStep acc) w

def shaRound (st : List ℕ) (kw : ℕ × ℕ) : List ℕ :=
  match st with
  | [a, b, c, d, e, f, g, h] =>
      let t1 := w32 (h + bsig1 e + chf e f g + kw.1 + kw.2)
      let t2 := w32 (bsig0 a + majf a b c)
      [w32 (t1 + t2), a, b, c, w32 (d + t1), e, f, g]
  | other => other

def shaCompress (h : List ℕ) (block : List ℕ) : List ℕ :=
  let w := shaSchedule (wordsOfBytes block)
  let st := (shaK.zip w).foldl shaRound h
  (h.zip st).map (fun p => w32 (p.1 + p.2))

/-- SHA-256 digest (32 bytes) of a byte list. -/
def sha256 (msg : List ℕ) : List ℕ :=
  let padded := shaPad msg
  let nblocks := padded.length / 64
  let hh := (List.range nblocks).foldl
    (fun h i => shaCompress h ((padded.drop (64 * i)).take 64)) shaH0
  hh.flatMap (fun wd => bytesBE 4 wd)

/-- Big-endian value of the first `k` bytes of a list (`struct.unpack` of
a digest prefix). -/
def firstBytesBE (k : ℕ) (l : List ℕ) : ℕ :=
  (l.take k).foldl (fun acc b => acc * 256 + b) 0

/-! ## simulator/seed.py -/

/-- `derive_tick_seed`: SHA-256 of `pack(">QI", match_seed, tick_index)`,
first 4 bytes big-endian. -/
def derive_tick_seed (match_seed tick_index : ℕ) : ℕ :=
  firstBytesBE 4 (sha256 (bytesBE 8 match_seed ++ bytesBE 4 tick_index))

/-- `derive_hit_seed`: SHA-256 of `pack(">QII", match_seed, tick, attack)`,
first 4 bytes big-endian. -/
def derive_hit_seed (match_seed tick_index attack_index : ℕ) : ℕ :=
  firstBytesBE 4 (sha256 (bytesBE 8 match_seed ++ bytesBE 4 tick_index ++
    bytesBE 4 attack_index))

/-- `derive_proc_seed`: SHA-256 of
`pack(">QIBB", match_seed, tick, creature_index, ability_index)`. -/
def derive_proc_seed (match_seed tick_index creature_index ability_index : ℕ) : ℕ :=
  firstBytesBE 4 (sha256 (bytesBE 8 match_seed ++ bytesBE 4 tick_index ++
    bytesBE 1 creature_index ++ bytesBE 1 ability_index))

/-- `seeded_random`: mask the seed to 32 bits, hash it, take the first
8 digest bytes as a big-endian integer, normalize to `[0,1)` and scale
to `[min_val, max_val]`.  Python float arithmetic is modelled exactly
over `ℚ`. -/
def seeded_random (seed : ℕ) (min_val max_val : ℚ) : ℚ :=
  let seed := seed % 2 ^ 32
  let raw := firstBytesBE 8 (sha256 (bytesBE 4 seed))
  let normalized : ℚ := (raw : ℚ) / 2 ^ 64
  min_val + normalized * (max_val - min_val)

/-- `seeded_bool`: true with the given probability. -/
def seeded_bool (seed : ℕ) (probability : ℚ) : Prop :=
  seeded_random seed 0 1 < probability

instance (seed : ℕ) (p : ℚ) : Decidable (seeded_bool seed p) := by
  unfold seeded_bool; infer_instance

/-! ## simulator/animals.py — core types and static tables -/

inductive Animal
  | BEAR | BUFFALO | BOAR | TIGER | WOLF | MONKEY | CROCODILE
  | EAGLE | SNAKE | RAVEN | SHARK | OWL | FOX | SCORPION
  deriving DecidableEq, Repr

inductive Passive
  | FURY_PROTOCOL | THICK_HIDE | CHARGE | AMBUSH_WIRING | PACK_SENSE
  | PRIMATE_CORTEX | DEATH_ROLL | AERIAL_STRIKE | VENOM_GLANDS | OMEN
  | BLOOD_FRENZY | NIGHT_VISION | CUNNING | PARALYTIC_STING
  deriving DecidableEq, Repr

inductive AbilityType
  | BERSERKER_RAGE | THICK_HIDE_ABILITY | POUNCE | HAMSTRING | PACK_HOWL
  | REND_ABILITY | CHAOS_STRIKE | MIMIC | STAMPEDE | IRON_WILL | GORE
  | LAST_STAND
  | DEATH_ROLL_ABILITY | THICK_SCALES | DIVE | KEEN_EYE | VENOM | COIL
  | SHADOW_CLONE | CURSE | BLOOD_FRENZY_ABILITY | BITE | FORESIGHT
  | SILENT_STRIKE | EVASION | TRICK | STING | EXOSKELETON
  deriving DecidableEq, Repr

def ANIMAL_PASSIVE : Animal → Passive
  | .BEAR => .FURY_PROTOCOL
  | .BUFFALO => .THICK_HIDE
  | .BOAR => .CHARGE
  | .TIGER => .AMBUSH_WIRING
  | .WOLF => .PACK_SENSE
  | .MONKEY => .PRIMATE_CORTEX
  | .CROCODILE => .DEATH_ROLL
  | .EAGLE => .AERIAL_STRIKE
  | .SNAKE => .VENOM_GLANDS
  | .RAVEN => .OMEN
  | .SHARK => .BLOOD_FRENZY
  | .OWL => .NIGHT_VISION
  | .FOX => .CUNNING
  | .SCORPION => .PARALYTIC_STING

inductive MutationBranch
  | APEX | FERAL
  deriving DecidableEq, Repr

inductive MutationTier
  | L1 | L2 | L3
  deriving DecidableEq, Repr

/-- Positions order lexicographically on `(row, col)` (`order=True`
dataclass). -/
structure Position where
  row : ℤ
  col : ℤ
  deriving DecidableEq, Repr

/-- Python dataclass `<` on `Position`: tuple comparison. -/
def Position.pylt (p q : Position) : Prop :=
  p.row < q.row ∨ (p.row = q.row ∧ p.col < q.col)

instance (p q : Position) : Decidable (p.pylt q) := by
  unfold Position.pylt; infer_instance

structure Size where
  rows : ℕ
  cols : ℕ
  deriving DecidableEq, Repr

/-- The raw `StatBlock` record.  Python validates in `__post_init__`;
the validating constructor is `StatBlock.create` below. -/
structure StatBlock where
  hp : ℤ
  atk : ℤ
  spd : ℤ
  wil : ℤ
  deriving DecidableEq, Repr

/-- `StatBlock.__post_init__`: each stat is checked `≥ 1` (in field
order), then the sum is checked `= 20`; a violation raises
`ValueError`, here `Except.error`. -/
def StatBlock.create (hp atk spd wil : ℤ) : Except String StatBlock :=
  if hp < 1 then .error ("All stats must have min 1, got hp")
  else if atk < 1 then .error ("All stats must have min 1, got atk")
  else if spd < 1 then .error ("All stats must have min 1, got spd")
  else if wil < 1 then .error ("All stats must have min 1, got wil")
  else if hp + atk + spd + wil ≠ 20 then .error ("Stats must sum to 20")
  else .ok ⟨hp, atk, spd, wil⟩

structure Mutation where
  id : String
  name : String
  branch : MutationBranch
  tier : MutationTier
  cost : ℤ
  success_rate : ℚ
  effect : String
  deriving DecidableEq, Repr

structure ActiveEffect where
  name : String
  remaining_ticks : ℤ
  damage_per_tick : ℤ := 0
  heal_per_tick : ℤ := 0
  deriving DecidableEq, Repr

structure Ability where
  name : String
  ability_type : AbilityType
  proc_chance : ℚ := 0.04
  duration : ℤ := 0
  is_single_charge : Bool := false
  animal : Animal := .BEAR
  deriving DecidableEq, Repr

/-- Side of a combatant: `"a"` or `"b"`. -/
inductive Side
  | a | b
  deriving DecidableEq, Repr

structure AbilityBuff where
  ability_type : AbilityType
  remaining_ticks : ℤ
  source_side : Side := .a
  is_mimic_copy : Bool := false
  deriving DecidableEq, Repr

def STRONG_RATE : ℚ := 0.035

def OTHER_RATE : ℚ := 0.045

/-- `ANIMAL_ABILITIES` as a list in the source dict's insertion order
(Python dicts preserve insertion order, which `_apply_mimic` iterates). -/
def ANIMAL_ABILITIES : List (Animal × (Ability × Ability)) :=
  [(.BEAR,
    (⟨"Berserker Rage", .BERSERKER_RAGE, STRONG_RATE, 3, false, .BEAR⟩,
     ⟨"Last Stand", .LAST_STAND, STRONG_RATE, 0, true, .BEAR⟩)),
   (.BUFFALO,
    (⟨"Thick Hide", .THICK_HIDE_ABILITY, OTHER_RATE, 1, false, .BUFFALO⟩,
     ⟨"Iron Will", .IRON_WILL, STRONG_RATE, 0, true, .BUFFALO⟩)),
   (.TIGER,
    (⟨"Pounce", .POUNCE, OTHER_RATE, 0, false, .TIGER⟩,
     ⟨"Hamstring", .HAMSTRING, OTHER_RATE, 4, false, .TIGER⟩)),
   (.WOLF,
    (⟨"Pack Howl", .PACK_HOWL, OTHER_RATE, 4, false, .WOLF⟩,
     ⟨"Rend", .REND_ABILITY, OTHER_RATE, 3, false, .WOLF⟩)),
   (.MONKEY,
    (⟨"Chaos Strike", .CHAOS_STRIKE, OTHER_RATE, 0, false, .MONKEY⟩,
     ⟨"Mimic", .MIMIC, STRONG_RATE, 0, false, .MONKEY⟩)),
   (.BOAR,
    (⟨"Stampede", .STAMPEDE, OTHER_RATE, 0, false, .BOAR⟩,
     ⟨"Gore", .GORE, STRONG_RATE, 0, false, .BOAR⟩)),
   (.CROCODILE,
    (⟨"Death Roll", .DEATH_ROLL_ABILITY, OTHER_RATE, 0, false, .CROCODILE⟩,
     ⟨"Thick Scales", .THICK_SCALES, OTHER_RATE, 2, false, .CROCODILE⟩)),
   (.EAGLE,
    (⟨"Dive", .DIVE, STRONG_RATE, 0, false, .EAGLE⟩,
     ⟨"Keen Eye", .KEEN_EYE, OTHER_RATE, 3, false, .EAGLE⟩)),
   (.SNAKE,
    (⟨"Venom", .VENOM, OTHER_RATE, 3, false, .SNAKE⟩,
     ⟨"Coil", .COIL, OTHER_RATE, 0, false, .SNAKE⟩)),
   (.RAVEN,
    (⟨"Shadow Clone", .SHADOW_CLONE, OTHER_RATE, 0, true, .RAVEN⟩,
     ⟨"Curse", .CURSE, OTHER_RATE, 3, false, .RAVEN⟩)),
   (.SHARK,
    (⟨"Blood Frenzy", .BLOOD_FRENZY_ABILITY, STRONG_RATE, 0, false, .SHARK⟩,
     ⟨"Bite", .BITE, OTHER_RATE, 2, false, .SHARK⟩)),
   (.OWL,
    (⟨"Foresight", .FORESIGHT, OTHER_RATE, 2, false, .OWL⟩,
     ⟨"Silent Strike", .SILENT_STRIKE, OTHER_RATE, 0, false, .OWL⟩)),
   (.FOX,
    (⟨"Evasion", .EVASION, OTHER_RATE, 3, false, .FOX⟩,
     ⟨"Trick", .TRICK, OTHER_RATE, 0, false, .FOX⟩)),
   (.SCORPION,
    (⟨"Sting", .STING, OTHER_RATE, 0, false, .SCORPION⟩,
     ⟨"Exoskeleton", .EXOSKELETON, OTHER_RATE, 0, false, .SCORPION⟩))]

/-- `ANIMAL_ABILITIES.get(animal, ())`, as the list of the two
abilities (or empty when the key is missing — never, here). -/
def animalAbilities (a : Animal) : List Ability :=
  match (ANIMAL_ABILITIES.find? (fun e => e.1 = a)) with
  | some e => [e.2.1, e.2.2]
  | none => []

/-- The full mutable combat state of one side (`Creature` dataclass).
`objId` is the embedding of Python object identity (see the header
comment). -/
structure Creature where
  animal : Animal
  stats : StatBlock
  passive : Passive
  current_hp : ℤ
  max_hp : ℤ
  base_dmg : ℤ
  armor_flat : ℤ
  size : Size
  position : Position
  mutations : List Mutation := []
  active_effects : List ActiveEffect := []
  second_wind_available : Bool := false
  second_wind_triggered : Bool := false
  charge_used : Bool := false
  first_hit_taken : Bool := false
  has_rend : Bool := false
  has_critical_strike : Bool := false
  has_execute : Bool := false
  has_regeneration : Bool := false
  has_bloodlust : Bool := false
  dodge_chance : ℚ := 0
  movement_range : ℤ := 1
  ability_range : ℤ := 1
  ability_power : ℚ := 1
  resist_chance : ℚ := 0
  abilities : List Ability := []
  active_buffs : List AbilityBuff := []
  iron_will_used : Bool := false
  last_stand_used : Bool := false
  last_ability_procced : Option AbilityType := none
  skip_next_attack : Bool := false
  fury_triggered : Bool := false
  fury_active_ticks : ℤ := 0
  active_cooldowns : List (String × ℤ) := []
  objId : ℕ := 0
  deriving DecidableEq, Repr

/-- `dataclasses.replace` allocates a fresh Python object: a fresh
object id.  Adding 2 keeps the two sides' id parities disjoint. -/
def bump (c : Creature) : Creature :=
  { c with objId := c.objId + 2 }

/-! ## simulator/grid.py

Only the grid operations used by the combat engine are embedded:
`is_valid_position`, `get_occupied_cells`, `place_creature`,
`remove_creature`, `get_distance`, `_is_position_free`,
`find_path_toward`.  The cell dict maps positions to the object id of
the creature placed there (Python stores the object itself and
compares with `is`). -/

structure Grid where
  width : ℤ := 8
  height : ℤ := 8
  cells : List (Position × ℕ) := []
  deriving DecidableEq, Repr

def Grid.lookup (g : Grid) (p : Position) : Option ℕ :=
  (g.cells.find? (fun e => e.1 = p)).map (·.2)

def Grid.setCell (g : Grid) (p : Position) (id : ℕ) : Grid :=
  { g with cells := g.cells.filter (fun e => e.1 ≠ p) ++ [(p, id)] }

def Grid.delCell (g : Grid) (p : Position) : Grid :=
  { g with cells := g.cells.filter (fun e => e.1 ≠ p) }

def Grid.is_valid_position (g : Grid) (position : Position) (size : Size) : Bool :=
  if position.row < 0 ∨ position.col < 0 then false
  else if position.row + size.rows > g.height then false
  else if position.col + size.cols > g.width then false
  else true

def get_occupied_cells (position : Position) (size : Size) : List Position :=
  (List.range size.rows).flatMap (fun dr =>
    (List.range size.cols).map (fun dc =>
      ⟨position.row + dr, position.col + dc⟩))

/-- `place_creature`: raises on an invalid position or on a cell held
by a different object; otherwise writes the creature's id into every
footprint cell. -/
def Grid.place_creature (g : Grid) (c : Creature) : Except String Grid :=
  if ¬ g.is_valid_position c.position c.size then
    .error ("Position invalid for size")
  else
    let cells := get_occupied_cells c.position c.size
    if cells.any (fun cell =>
        match g.lookup cell with
        | some id => id ≠ c.objId
        | none => false) then
      .error ("Cell already occupied")
    else
      .ok (cells.foldl (fun g cell => g.setCell cell c.objId) g)

/-- `remove_creature`: deletes exactly the footprint cells currently
holding this very object (`is` comparison). -/
def Grid.remove_creature (g : Grid) (c : Creature) : Grid :=
  (get_occupied_cells c.position c.size).foldl
    (fun g cell =>
      match g.lookup cell with
      | some id => if id = c.objId then g.delCell cell else g
      | none => g)
    g

/-- Chebyshev distance between cells. -/
def get_distance (a b : Position) : ℤ :=
  max (a.row - b.row).natAbs (a.col - b.col).natAbs

def Grid.is_position_free (g : Grid) (pos : Position) (size : Size)
    (exclude : Option ℕ) : Bool :=
  if ¬ g.is_valid_position pos size then false
  else (get_occupied_cells pos size).all (fun cell =>
    match g.lookup cell with
    | some id => some id = exclude
    | none => true)

/-- Inclusive integer range `lo..hi` in order (`range(lo, hi + 1)`). -/
def int_range (lo hi : ℤ) : List ℤ :=
  (List.range (hi + 1 - lo).toNat).map (fun i => lo + i)

/-- `find_path_toward`: scan all offsets within the movement square in
row-major order; keep the reachable free cell minimizing distance to
the target, ties broken by the dataclass `<` on positions. -/
def Grid.find_path_toward (g : Grid) (creature : Creature) (target : Position) :
    Position :=
  let mr := creature.movement_range
  let best := (int_range (-mr) mr).foldl (fun best dr =>
    (int_range (-mr) mr).foldl (fun (best : ℤ × Position) dc =>
      if dr = 0 ∧ dc = 0 then best
      else
        let candidate : Position :=
          ⟨creature.position.row + dr, creature.position.col + dc⟩
        let move_dist := get_distance creature.position candidate
        if move_dist > creature.movement_range then best
        else if ¬ g.is_position_free candidate creature.size (some creature.objId)
          then best
        else
          let dist_to_target := get_distance candidate target
          if dist_to_target < best.1 then (dist_to_target, candidate)
          else if dist_to_target = best.1 ∧ candidate.pylt best.2 then
            (best.1, candidate)
          else best) best)
    (get_distance creature.position target, creature.position)
  best.2

/-! ## Event log records

The Python log is a list of string-keyed dicts; each emitted shape is
one constructor here, with the same fields. -/

inductive Event
  | skip_attack (side : Side)
  | move (side : Side) (toPos : ℤ × ℤ)
  | attack (side : Side) (damage : ℤ) (dodged : Bool) (hp_remaining : ℤ)
  | ability_resisted (side : Side) (ability : AbilityType)
  | trick_reflected (side : Side) (ability : AbilityType)
  | ability_proc (side : Side) (ability : AbilityType) (duration : ℤ)
  | dot (side : Side) (damage : ℤ) (hp_remaining : ℤ)
  | ring_damage (side : Side) (damage : ℤ) (hp_remaining : ℤ)
  | second_wind (side : Side) (heal : ℤ) (hp_remaining : ℤ)
  | regeneration (side : Side) (heal : ℤ) (hp_remaining : ℤ)
  deriving DecidableEq, Repr

/-! ## simulator/abilities.py -/

/-- `MIMIC_BLOCKED`: the abilities Mimic cannot copy. -/
def MIMIC_BLOCKED : List AbilityType := [.IRON_WILL, .LAST_STAND, .MIMIC]

/-- `can_mimic`. -/
def can_mimic (ability_type : AbilityType) : Bool :=
  ¬ ability_type ∈ MIMIC_BLOCKED

/-- `_find_trick_buff_index`. -/
def _find_trick_buff_index (creature : Creature) : Option ℕ :=
  (creature.active_buffs.findIdx? (fun b => b.ability_type = .TRICK))

/-- `_apply_mimic`: copy the opponent's last procced ability at 75%
strength, unless blocked (or no original definition exists). -/
def _apply_mimic (creature opponent : Creature) (_side : Side)
    (_proc_seed : ℕ) : Creature × Creature :=
  match opponent.last_ability_procced with
  | none => (creature, opponent)
  | some target_ability =>
    if ¬ can_mimic target_ability then (creature, opponent)
    else
      let original := (ANIMAL_ABILITIES.flatMap
        (fun e => [e.2.1, e.2.2])).find?
        (fun ab => ab.ability_type = target_ability)
      match original with
      | none => (creature, opponent)
      | some original =>
        let duration : ℤ :=
          if original.duration > 0 then max 1 original.duration else 1
        let buff : AbilityBuff :=
          ⟨target_ability, duration, _side, true⟩
        (bump { creature with
                  active_buffs := creature.active_buffs ++ [buff] },
         opponent)

/-- `_apply_ability_proc`: dispatch on the ability kind, mark
single-charge flags, append the `ability_proc` event.  Returns the
updated creature, opponent and event list. -/
def _apply_ability_proc (creature opponent : Creature) (ability : Ability)
    (side : Side) (events : List Event) (proc_seed : ℕ) :
    Creature × Creature × List Event :=
  let atype := ability.ability_type
  let creature :=
    if ability.is_single_charge then
      if atype = .IRON_WILL then bump { creature with iron_will_used := true }
      else if atype = .LAST_STAND then
        bump { creature with last_stand_used := true }
      else creature
    else creature
  let co : Creature × Creature :=
    if atype = .BERSERKER_RAGE ∨ atype = .THICK_HIDE_ABILITY ∨
       atype = .PACK_HOWL ∨ atype = .KEEN_EYE ∨ atype = .EVASION then
      (bump { creature with active_buffs := creature.active_buffs ++
                [⟨atype, ability.duration, side, false⟩] }, opponent)
    else if atype = .POUNCE ∨ atype = .CHAOS_STRIKE ∨ atype = .GORE ∨
            atype = .STAMPEDE ∨ atype = .LAST_STAND ∨ atype = .DIVE then
      let creature := bump { creature with active_buffs :=
        creature.active_buffs ++ [⟨atype, 1, side, false⟩] }
      if atype = .STAMPEDE ∨ atype = .POUNCE then
        (creature, bump { opponent with skip_next_attack := true })
      else (creature, opponent)
    else if atype = .COIL ∨ atype = .TRICK ∨ atype = .EXOSKELETON then
      (bump { creature with active_buffs := creature.active_buffs ++
                [⟨atype, 1, side, false⟩] }, opponent)
    else if atype = .IRON_WILL then
      let heal := Int.floor ((creature.max_hp : ℚ) * 0.12)
      let new_hp := min creature.max_hp (creature.current_hp + heal)
      (bump { creature with current_hp := new_hp }, opponent)
    else if atype = .HAMSTRING then
      (creature, bump { opponent with active_buffs :=
        opponent.active_buffs ++ [⟨atype, ability.duration, side, false⟩] })
    else if atype = .REND_ABILITY then
      let dot_dmg := max 1 (Int.floor ((creature.max_hp : ℚ) * 0.05))
      (creature, bump { opponent with active_effects :=
        opponent.active_effects ++ [⟨"ability_rend", 3, dot_dmg, 0⟩] })
    else if atype = .VENOM then
      let existing_venoms := opponent.active_effects.filter
        (fun e => e.name = "ability_venom")
      if existing_venoms.length < 3 then
        let dot_dmg := max 1 (Int.floor ((opponent.max_hp : ℚ) * 0.03))
        (creature, bump { opponent with active_effects :=
          opponent.active_effects ++ [⟨"ability_venom", 3, dot_dmg, 0⟩] })
      else (creature, opponent)
    else if atype = .STING then
      (creature, bump { opponent with skip_next_attack := true })
    else if atype = .MIMIC then
      _apply_mimic creature opponent side proc_seed
    else (creature, opponent)
  (co.1, co.2, events ++ [.ability_proc side atype ability.duration])

/-- Loop state of `roll_ability_procs`. -/
structure ProcState where
  creature : Creature
  opponent : Creature
  events : List Event
  last_procced : Option AbilityType
  deriving Repr

/-- One iteration of the `roll_ability_procs` loop, for the ability at
slot `iab.1`. -/
def proc_step (match_seed tick creature_index : ℕ) (side : Side)
    (st : ProcState) (iab : ℕ × Ability) : ProcState :=
  let ability := iab.2
  if ability.is_single_charge ∧ ability.ability_type = .IRON_WILL ∧
     st.creature.iron_will_used then st
  else if ability.is_single_charge ∧ ability.ability_type = .LAST_STAND ∧
     st.creature.last_stand_used then st
  else if ability.ability_type = .LAST_STAND ∧
     (st.creature.current_hp : ℚ) ≥ (st.creature.max_hp : ℚ) * 0.15 then st
  else
    let proc_seed := derive_proc_seed match_seed tick creature_index iab.1
    let eff_proc := ability.proc_chance + (st.creature.stats.wil : ℚ) * 0.0008
    if ¬ seeded_bool proc_seed eff_proc then st
    else
      let resist_seed := proc_seed + 7
      let wil_resist_chance := min 0.60 ((st.opponent.stats.wil : ℚ) * 0.033)
      if seeded_bool resist_seed wil_resist_chance then
        { st with events := st.events ++
            [.ability_resisted side ability.ability_type] }
      else
        match _find_trick_buff_index st.opponent with
        | some trick_idx =>
          let new_buffs := (st.opponent.active_buffs.enum.filter
            (fun e => e.1 ≠ trick_idx)).map (·.2)
          { st with
            opponent := bump { st.opponent with active_buffs := new_buffs },
            events := st.events ++
              [.trick_reflected side ability.ability_type] }
        | none =>
          let r := _apply_ability_proc
            st.creature st.opponent ability side st.events proc_seed
          { creature := r.1, opponent := r.2.1, events := r.2.2,
            last_procced := some ability.ability_type }

/-- `roll_ability_procs`: fold the loop over the creature's ability
slots, then record the last procced ability kind. -/
def roll_ability_procs (creature opponent : Creature) (match_seed tick : ℕ)
    (creature_index : ℕ) (side : Side) (events : List Event) :
    Creature × Creature × List Event :=
  let st := creature.abilities.enum.foldl
    (proc_step match_seed tick creature_index side)
    ⟨creature, opponent, events, none⟩
  match st.last_procced with
  | some lp =>
    (bump { st.creature with last_ability_procced := some lp },
     st.opponent, st.events)
  | none => (st.creature, st.opponent, st.events)

/-- `apply_ability_attack_mods`: fold ATK modifiers from active buffs
in order.  Chaos Strike overwrites the multiplier. -/
def apply_ability_attack_mods (attacker : Creature) (atk_mod : ℚ)
    (hit_seed : ℕ) : Creature × ℚ :=
  let atk_mod := attacker.active_buffs.foldl (fun atk_mod buff =>
    let mimic_scale : ℚ := if buff.is_mimic_copy then 0.75 else 1
    if buff.ability_type = .PACK_HOWL then atk_mod * (1 + 0.30 * mimic_scale)
    else if buff.ability_type = .POUNCE then atk_mod * (1 + 0.70 * mimic_scale)
    else if buff.ability_type = .STAMPEDE then
      atk_mod * (1 + 0.50 * mimic_scale)
    else if buff.ability_type = .LAST_STAND then
      if (attacker.current_hp : ℚ) < (attacker.max_hp : ℚ) * 0.15 then
        atk_mod * (1 + 1 * mimic_scale)
      else atk_mod
    else if buff.ability_type = .GORE then atk_mod * 0.60
    else if buff.ability_type = .CHAOS_STRIKE then
      let chaos_mod := seeded_random (hit_seed + 777) 0.8 2.2
      if buff.is_mimic_copy then 1 + (chaos_mod - 1) * 0.75 else chaos_mod
    else if buff.ability_type = .DIVE then atk_mod * (1 + 1 * mimic_scale)
    else atk_mod) atk_mod
  (attacker, atk_mod)

/-- `get_chaos_strike_mod`. -/
def get_chaos_strike_mod (seed : ℕ) : ℚ := seeded_random seed 0.8 2.2

/-- `has_ignore_dodge_buff`: Pounce, Gore or Dive. -/
def has_ignore_dodge_buff (creature : Creature) : Bool :=
  creature.active_buffs.any (fun b =>
    b.ability_type = .POUNCE ∨ b.ability_type = .GORE ∨
    b.ability_type = .DIVE)

/-- `get_effective_dodge`: Coil overrides to 1; Keen Eye/Evasion add;
Berserker Rage and Hamstring scale down (Hamstring also subtracts);
clamp to `[0,1]`. -/
def get_effective_dodge (creature : Creature) : ℚ :=
  if creature.active_buffs.any (fun b => b.ability_type = .COIL) then 1
  else
    let dodge := creature.active_buffs.foldl (fun dodge buff =>
      if buff.ability_type = .KEEN_EYE then
        dodge + 0.20 * (if buff.is_mimic_copy then (0.75 : ℚ) else 1)
      else if buff.ability_type = .EVASION then
        dodge + 0.50 * (if buff.is_mimic_copy then (0.75 : ℚ) else 1)
      else dodge) creature.dodge_chance
    let dodge := creature.active_buffs.foldl (fun dodge buff =>
      if buff.ability_type = .BERSERKER_RAGE then
        dodge * (1 - 0.40 * (if buff.is_mimic_copy then (0.75 : ℚ) else 1))
      else dodge) dodge
    let dodge := creature.active_buffs.foldl (fun dodge buff =>
      if buff.ability_type = .HAMSTRING then
        let scale : ℚ := if buff.is_mimic_copy then 0.75 else 1
        dodge * (1 - 0.55 * scale) - 0.10 * scale
      else dodge) dodge
    max 0 (min 1 dodge)

/-- `apply_ability_defense`: Thick Hide fully blocks (all its buff
instances are consumed); otherwise Exoskeleton blocks up to 15% of max
HP (consumed). -/
def apply_ability_defense (defender : Creature) (dmg : ℤ) :
    Creature × ℤ :=
  if defender.active_buffs.any (fun b =>
      b.ability_type = .THICK_HIDE_ABILITY) then
    let remaining := defender.active_buffs.filter
      (fun b => b.ability_type ≠ .THICK_HIDE_ABILITY)
    (bump { defender with active_buffs := remaining }, 0)
  else if defender.active_buffs.any (fun b =>
      b.ability_type = .EXOSKELETON) then
    let remaining := defender.active_buffs.filter
      (fun b => b.ability_type ≠ .EXOSKELETON)
    let block_amount := Int.floor ((defender.max_hp : ℚ) * 0.15)
    (bump { defender with active_buffs := remaining },
     max 0 (dmg - block_amount))
  else (defender, dmg)

/-- `check_fury_trigger`: once per match, below 50% HP, arm a 3-tick
fury window. -/
def check_fury_trigger (creature : Creature) : Creature :=
  if creature.passive ≠ .FURY_PROTOCOL then creature
  else if creature.fury_triggered then creature
  else if (creature.current_hp : ℚ) ≥ (creature.max_hp : ℚ) * 0.5 then creature
  else bump { creature with fury_triggered := true, fury_active_ticks := 3 }

/-- `tick_fury`. -/
def tick_fury (creature : Creature) : Creature :=
  if creature.fury_active_ticks ≤ 0 then creature
  else bump { creature with fury_active_ticks := creature.fury_active_ticks - 1 }

/-- `tick_ability_buffs`: decrement all buff durations, drop expired. -/
def tick_ability_buffs (creature : Creature) : Creature :=
  if creature.active_buffs = [] then creature
  else
    let remaining := (creature.active_buffs.map (fun buff =>
      AbilityBuff.mk buff.ability_type (buff.remaining_ticks - 1)
        buff.source_side buff.is_mimic_copy)).filter
      (fun b => b.remaining_ticks > 0)
    bump { creature with active_buffs := remaining }

/-! ## simulator/engine.py -/

structure CombatConfig where
  max_ticks : ℕ := 60
  ring_start_tick : ℕ := 30
  deriving DecidableEq, Repr

structure TickLog where
  tick : ℕ
  events : List Event
  deriving DecidableEq, Repr

structure CombatResult where
  winner : Option Side
  ticks : ℕ
  end_condition : String
  seed : ℕ
  log : List TickLog
  final_hp_a : ℤ
  final_hp_b : ℤ
  deriving DecidableEq, Repr

/-- `calculate_initiative`: speed plus a seeded uniform in
`uniform(0, 0.49)`, seed offset `creature_index * 7919`. -/
def calculate_initiative (spd : ℤ) (tick_seed : ℕ) (creature_index : ℕ) : ℚ :=
  let seed := tick_seed + creature_index * 7919
  let u := seeded_random seed 0 0.49
  (spd : ℚ) + u

/-- `calculate_physical_damage`: raw = `floor(base_dmg * ability_mod)`;
dodge roll may zero the attack; armor subtracts
`min(flat, floor(raw*0.5))`, floored at 1; a ±5% jitter applies,
floored; final floor at 1. -/
def calculate_physical_damage (attacker target : Creature)
    (hit_seed dodge_seed : ℕ) (ability_mod : ℚ) (is_single_target : Bool)
    (ignore_dodge : Bool) (effective_dodge : Option ℚ) : ℤ :=
  let raw : ℤ := Int.floor ((attacker.base_dmg : ℚ) * ability_mod)
  let dodge := effective_dodge.getD target.dodge_chance
  if is_single_target ∧ ¬ ignore_dodge ∧ dodge > 0 ∧
     seeded_random dodge_seed 0 1 < dodge then 0
  else
    let effective_armor := min target.armor_flat (Int.floor ((raw : ℚ) * 0.5))
    let after_armor := max 1 (raw - effective_armor)
    let eps := seeded_random (hit_seed + 1) (-0.05) 0.05
    let final := Int.floor ((after_armor : ℚ) * (1 + eps))
    max 1 final

/-- `CombatEngine._is_adjacent`: some pair of footprint cells at
Chebyshev distance at most 1. -/
def _is_adjacent (a b : Creature) : Bool :=
  (List.range a.size.rows).any (fun dr_a =>
    (List.range a.size.cols).any (fun dc_a =>
      (List.range b.size.rows).any (fun dr_b =>
        (List.range b.size.cols).any (fun dc_b =>
          get_distance ⟨a.position.row + dr_a, a.position.col + dc_a⟩
            ⟨b.position.row + dr_b, b.position.col + dc_b⟩ ≤ 1))))

/-- `CombatEngine._apply_attack_passives`.  Fury and Berserker Rage
are compared (max), never stacked; Charge and Ambush Wiring consume
the one-shot flag; execute doubles below 25% HP. -/
def _apply_attack_passives (attacker defender : Creature) (atk_mod : ℚ)
    (_side : Side) (_a _b : Creature) : Creature × ℚ :=
  let fury_or_rage_mod : ℚ :=
    if attacker.passive = .FURY_PROTOCOL ∧ attacker.fury_active_ticks > 0
    then 1.5 else 1
  let fury_or_rage_mod := attacker.active_buffs.foldl (fun m buff =>
    if buff.ability_type = .BERSERKER_RAGE then
      max m (1 + 0.60 * (if buff.is_mimic_copy then (0.75 : ℚ) else 1))
    else m) fury_or_rage_mod
  let atk_mod :=
    if fury_or_rage_mod > 1 then atk_mod * fury_or_rage_mod else atk_mod
  let (attacker, atk_mod) :=
    if attacker.passive = .CHARGE ∧ ¬ attacker.charge_used then
      (bump { attacker with charge_used := true }, atk_mod * 1.5)
    else (attacker, atk_mod)
  let (attacker, atk_mod) :=
    if attacker.passive = .AMBUSH_WIRING ∧ ¬ attacker.charge_used ∧
       attacker.stats.spd > defender.stats.spd then
      (bump { attacker with charge_used := true }, atk_mod * 2)
    else (attacker, atk_mod)
  let atk_mod :=
    if attacker.has_execute ∧
       (defender.current_hp : ℚ) < (defender.max_hp : ℚ) * 0.25 then
      atk_mod * 2
    else atk_mod
  (attacker, atk_mod)

/-- `CombatEngine._apply_defense_passives`: Thick Hide halves the very
first hit taken (floored, min 1). -/
def _apply_defense_passives (defender : Creature) (dmg : ℤ)
    (_attacker_side : Side) : Creature × ℤ :=
  if defender.passive = .THICK_HIDE ∧ ¬ defender.first_hit_taken then
    let dmg := max 1 (Int.floor ((dmg : ℚ) * 0.5))
    (bump { defender with first_hit_taken := true }, dmg)
  else (defender, dmg)

/-- `CombatEngine._process_dot`: sum per-tick damage of active
effects, decrement and drop expired, log if the total is positive. -/
def _process_dot (creature : Creature) (side : Side) (events : List Event) :
    Creature × List Event :=
  if creature.active_effects = [] then (creature, events)
  else
    let total_dot := creature.active_effects.foldl (fun t eff =>
      if eff.damage_per_tick > 0 then t + eff.damage_per_tick else t) 0
    let remaining := (creature.active_effects.map (fun eff =>
      ActiveEffect.mk eff.name (eff.remaining_ticks - 1)
        eff.damage_per_tick eff.heal_per_tick)).filter
      (fun e => e.remaining_ticks > 0)
    if total_dot > 0 then
      let creature := bump { creature with
        current_hp := creature.current_hp - total_dot,
        active_effects := remaining }
      (creature, events ++ [.dot side total_dot creature.current_hp])
    else (bump { creature with active_effects := remaining }, events)

/-- `CombatEngine._apply_effects`. -/
def _apply_effects (a b : Creature) (events : List Event) :
    Creature × Creature × List Event :=
  let ra := _process_dot a .a events
  let rb := _process_dot b .b ra.2
  (ra.1, rb.1, rb.2)

/-- `CombatEngine._get_ring_damage`. -/
def _get_ring_damage (tick : ℕ) (config : CombatConfig) (max_hp : ℤ) : ℤ :=
  if tick < config.ring_start_tick then 0
  else max 1 (Int.floor ((max_hp : ℚ) * 0.02))

/-- `CombatEngine._is_in_ring`: inactive before the ring start tick;
the safe rectangle is rows/cols `1..6` while `offset ≤ 4` and `2..5`
afterwards; in ring iff some footprint cell lies outside it. -/
def _is_in_ring (creature : Creature) (tick : ℕ) (config : CombatConfig) :
    Bool :=
  if tick < config.ring_start_tick then false
  else
    let offset := tick - config.ring_start_tick
    let safe : ℤ × ℤ :=
      if offset ≤ 4 then (1, 6)
      else if offset ≤ 9 then (2, 5)
      else (2, 5)
    (List.range creature.size.rows).any (fun dr =>
      (List.range creature.size.cols).any (fun dc =>
        let r := creature.position.row + dr
        let c := creature.position.col + dc
        r < safe.1 ∨ r > safe.2 ∨ c < safe.1 ∨ c > safe.2))

/-- `CombatEngine._apply_ring_damage`: before the start tick nothing
happens; afterwards each side in the ring takes the ring damage, with
a `ring_damage` event. -/
def _apply_ring_damage (a b : Creature) (tick : ℕ) (config : CombatConfig)
    (events : List Event) : Creature × Creature × List Event :=
  if tick < config.ring_start_tick then (a, b, events)
  else
    let (a, events) :=
      if _is_in_ring a tick config then
        let ring_dmg_a := _get_ring_damage tick config a.max_hp
        let a := bump { a with current_hp := a.current_hp - ring_dmg_a }
        (a, events ++ [.ring_damage .a ring_dmg_a a.current_hp])
      else (a, events)
    let (b, events) :=
      if _is_in_ring b tick config then
        let ring_dmg_b := _get_ring_damage tick config b.max_hp
        let b := bump { b with current_hp := b.current_hp - ring_dmg_b }
        (b, events ++ [.ring_damage .b ring_dmg_b b.current_hp])
      else (b, events)
    (a, b, events)

/-- `CombatEngine._try_second_wind`: once per match, alive and below
30% of max HP, heal `floor(max_hp * 0.25)` clamped at max HP. -/
def _try_second_wind (creature : Creature) (side : Side)
    (events : List Event) : Creature × List Event :=
  if creature.second_wind_available ∧ ¬ creature.second_wind_triggered ∧
     creature.current_hp > 0 ∧
     (creature.current_hp : ℚ) < (creature.max_hp : ℚ) * 0.3 then
    let heal := Int.floor ((creature.max_hp : ℚ) * 0.25)
    let creature := bump { creature with
      current_hp := min creature.max_hp (creature.current_hp + heal),
      second_wind_triggered := true }
    (creature, events ++ [.second_wind side heal creature.current_hp])
  else (creature, events)

/-- `CombatEngine._check_second_wind`. -/
def _check_second_wind (a b : Creature) (events : List Event) :
    Creature × Creature × List Event :=
  let ra := _try_second_wind a .a events
  let rb := _try_second_wind b .b ra.2
  (ra.1, rb.1, rb.2)

/-- One side of `CombatEngine._apply_regeneration`'s loop.  The heal
amount is hard-coded to zero. -/
def _regen_one (creature : Creature) (side : Side) (events : List Event) :
    Creature × List Event :=
  if creature.has_regeneration ∧ creature.current_hp > 0 then
    let heal : ℤ := 0
    let new_hp := min creature.max_hp (creature.current_hp + heal)
    if new_hp ≠ creature.current_hp then
      let updated := bump { creature with current_hp := new_hp }
      (updated, events ++ [.regeneration side heal updated.current_hp])
    else (creature, events)
  else (creature, events)

/-- `CombatEngine._apply_regeneration`. -/
def _apply_regeneration (a b : Creature) (events : List Event) :
    Creature × Creature × List Event :=
  let ra := _regen_one a .a events
  let rb := _regen_one b .b ra.2
  (ra.1, rb.1, rb.2)

/-- `CombatEngine._resolve_death`: on a double KO compare the HP
percentages held at the start of the tick. -/
def _resolve_death (a b : Creature) (hp_a_start hp_b_start : ℤ) :
    Option Side :=
  if a.current_hp ≤ 0 ∧ b.current_hp ≤ 0 then
    let pct_a := (hp_a_start : ℚ) / (a.max_hp : ℚ)
    let pct_b := (hp_b_start : ℚ) / (b.max_hp : ℚ)
    if pct_a > pct_b then some .a
    else if pct_b > pct_a then some .b
    else none
  else if a.current_hp ≤ 0 then some .b
  else some .a

/-- `CombatEngine._resolve_timeout`: compare final HP percentages. -/
def _resolve_timeout (a b : Creature) : Option Side :=
  let pct_a := (a.current_hp : ℚ) / (a.max_hp : ℚ)
  let pct_b := (b.current_hp : ℚ) / (b.max_hp : ℚ)
  if pct_a > pct_b then some .a
  else if pct_b > pct_a then some .b
  else none

/-- Per-tick turn-loop state (`a`, `b`, the grid, the running global
attack counter and the tick's event list). -/
structure TurnSt where
  a : Creature
  b : Creature
  grid : Grid
  attack_index : ℕ
  events : List Event
  deriving Repr

def setSide (st : TurnSt) (side : Side) (c : Creature) : TurnSt :=
  if side = .a then { st with a := c } else { st with b := c }

/-- Body of the per-side turn loop in `run_combat`: skip check,
movement toward the opponent, then one attack if adjacent. -/
def take_turn (match_seed tick : ℕ) (st : TurnSt) (side : Side) :
    Except String TurnSt :=
  let attacker := if side = .a then st.a else st.b
  let defender := if side = .a then st.b else st.a
  if attacker.current_hp ≤ 0 then .ok st
  else if attacker.skip_next_attack then
    let attacker := bump { attacker with skip_next_attack := false }
    .ok { setSide st side attacker with
          events := st.events ++ [.skip_attack side] }
  else do
    let moved : Except String (TurnSt × Creature) :=
      if ¬ _is_adjacent attacker defender then
        let target_pos := st.grid.find_path_toward attacker defender.position
        if target_pos ≠ attacker.position then do
          let g := st.grid.remove_creature attacker
          let attacker := bump { attacker with position := target_pos }
          let g ← g.place_creature attacker
          let st := setSide st side attacker
          pure ({ st with grid := g, events := st.events ++
                   [.move side (target_pos.row, target_pos.col)] }, attacker)
        else pure (st, attacker)
      else pure (st, attacker)
    let (st, attacker) ← moved
    let defender := if side = .a then st.b else st.a
    if _is_adjacent attacker defender ∧ defender.current_hp > 0 then
      let attack_index := st.attack_index + 1
      let hit_seed := derive_hit_seed match_seed tick attack_index
      let dodge_seed := hit_seed + 31337
      let atk_mod : ℚ := 1
      let (attacker, atk_mod) :=
        _apply_attack_passives attacker defender atk_mod side st.a st.b
      let (attacker, atk_mod) :=
        apply_ability_attack_mods attacker atk_mod hit_seed
      let st := setSide { st with attack_index := attack_index } side attacker
      let ignore_dodge := has_ignore_dodge_buff attacker
      let eff_dodge := get_effective_dodge defender
      let dmg := calculate_physical_damage attacker defender hit_seed
        dodge_seed atk_mod true ignore_dodge (some eff_dodge)
      let (defender, dmg) :=
        if dmg > 0 then _apply_defense_passives defender dmg side
        else (defender, dmg)
      let (defender, dmg) :=
        if dmg > 0 then apply_ability_defense defender dmg
        else (defender, dmg)
      let defender :=
        if attacker.has_rend ∧ dmg > 0 then
          bump { defender with active_effects :=
            defender.active_effects ++ [⟨"bleed", 3, 2, 0⟩] }
        else defender
      let defender := bump { defender with
        current_hp := defender.current_hp - dmg }
      let st :=
        if side = .a then { st with a := attacker, b := defender }
        else { st with b := attacker, a := defender }
      .ok { st with events := st.events ++
        [.attack side dmg (decide (dmg = 0)) defender.current_hp] }
    else .ok st

/-- The proc phase of a tick: roll ability procs for each living side
in turn order. -/
def proc_phase (match_seed tick : ℕ) (turn_order : List Side)
    (a b : Creature) (events : List Event) :
    Creature × Creature × List Event :=
  turn_order.foldl (fun acc side =>
    let (a, b, events) := acc
    let creature_idx : ℕ := if side = .a then 0 else 1
    let attacker := if side = .a then a else b
    let opponent := if side = .a then b else a
    if attacker.current_hp > 0 then
      let (attacker, opponent, events) := roll_ability_procs attacker
        opponent match_seed tick creature_idx side events
      if side = .a then (attacker, opponent, events)
      else (opponent, attacker, events)
    else acc) (a, b, events)

/-- The turn-order selection of `run_combat`: side "a" acts first iff
`init_a >= init_b`. -/
def turn_order_of (init_a init_b : ℚ) : List Side :=
  if init_a ≥ init_b then [.a, .b] else [.b, .a]

/-- One full tick of `run_combat`'s loop body (initiative, the turn
loop, buff decay, procs, fury, DOTs, ring, second wind,
regeneration).  Returns the updated state and the tick's events. -/
def run_tick (match_seed : ℕ) (cfg : CombatConfig) (tick : ℕ)
    (a b : Creature) (grid : Grid) (attack_index : ℕ) :
    Except String (Creature × Creature × Grid × ℕ × List Event) := do
  let tick_seed := derive_tick_seed match_seed tick
  let init_a := calculate_initiative a.stats.spd tick_seed 0
  let init_b := calculate_initiative b.stats.spd tick_seed 1
  let turn_order : List Side := turn_order_of init_a init_b
  let st : TurnSt := ⟨a, b, grid, attack_index, []⟩
  let st ← turn_order.foldlM (take_turn match_seed tick) st
  let a := tick_ability_buffs st.a
  let b := tick_ability_buffs st.b
  let (a, b, events) := proc_phase match_seed tick turn_order a b st.events
  let a := check_fury_trigger a
  let b := check_fury_trigger b
  let a := tick_fury a
  let b := tick_fury b
  let (a, b, events) := _apply_effects a b events
  let (a, b, events) := _apply_ring_damage a b tick cfg events
  let (a, b, events) := _check_second_wind a b events
  let (a, b, events) := _apply_regeneration a b events
  pure (a, b, st.grid, st.attack_index, events)

/-- The tick loop of `run_combat`, with `fuel` remaining ticks. -/
def run_ticks (match_seed : ℕ) (cfg : CombatConfig) (a b : Creature)
    (grid : Grid) (log : List TickLog) (attack_index : ℕ) (tick : ℕ) :
    ℕ → Except String CombatResult
  | 0 =>
    .ok ⟨_resolve_timeout a b, cfg.max_ticks, "timeout", match_seed, log,
      a.current_hp, b.current_hp⟩
  | fuel + 1 => do
    let hp_a_start := a.current_hp
    let hp_b_start := b.current_hp
    let (a, b, grid, attack_index, events) ←
      run_tick match_seed cfg tick a b grid attack_index
    let log := log ++ [⟨tick, events⟩]
    if a.current_hp ≤ 0 ∨ b.current_hp ≤ 0 then
      .ok ⟨_resolve_death a b hp_a_start hp_b_start, tick, "death",
        match_seed, log, a.current_hp, b.current_hp⟩
    else
      run_ticks match_seed cfg a b grid log attack_index (tick + 1) fuel

/-- `CombatEngine.run_combat`.  The two input creatures get their
default ability lists when empty and are placed on a fresh grid (ids 0
and 1 model the two fresh Python objects); exceptions from grid
placement surface as `Except.error`. -/
def run_combat (creature_a creature_b : Creature) (match_seed : ℕ)
    (config : Option CombatConfig) : Except String CombatResult := do
  let cfg := config.getD {}
  let grid : Grid := {}
  let a := { creature_a with
    abilities := if creature_a.abilities = [] then
        animalAbilities creature_a.animal
      else creature_a.abilities,
    objId := 0 }
  let b := { creature_b with
    abilities := if creature_b.abilities = [] then
        animalAbilities creature_b.animal
      else creature_b.abilities,
    objId := 1 }
  let grid ← grid.place_creature a
  let grid ← grid.place_creature b
  run_ticks match_seed cfg a b grid [] 0 1 cfg.max_ticks

/-! ## simulator/__main__.py — build validation -/

/-- The stat-validation part of `_parse_build` (sum check, then
per-stat minimum check, in source order).  The string splitting,
integer parsing and species lookup that precede it are not needed by
the claims. -/
def _parse_build_validate (hp atk spd wil : ℤ) : Except String (ℤ × ℤ × ℤ × ℤ) :=
  if hp + atk + spd + wil ≠ 20 then .error ("Stats must sum to 20")
  else if hp < 1 then .error ("All stats must be at least 1, got hp")
  else if atk < 1 then .error ("All stats must be at least 1, got atk")
  else if spd < 1 then .error ("All stats must be at least 1, got spd")
  else if wil < 1 then .error ("All stats must be at least 1, got wil")
  else .ok (hp, atk, spd, wil)

/-! ## Claim-side (specification) definitions

These definitions follow the wording of the checked claims, to be
compared against the embedded source functions above. -/

/-- A footprint cell of the creature lies outside the square
`[lo, hi] × [lo, hi]` (the claims' notion of being outside the safe
rectangle). -/
def cell_outside_rect (c : Creature) (lo hi : ℤ) : Bool :=
  (List.range c.size.rows).any (fun dr =>
    (List.range c.size.cols).any (fun dc =>
      let r := c.position.row + dr
      let col := c.position.col + dc
      r < lo ∨ r > hi ∨ col < lo ∨ col > hi))

/-- Claim C3's rectangle-selection rule, verbatim: the larger safe
rectangle (1..6) for exactly the first 4 ticks of the hazard
(offsets 0..3), the smaller one (2..5) every hazard tick thereafter. -/
def _is_in_ring_claim (creature : Creature) (tick : ℕ)
    (config : CombatConfig) : Bool :=
  if tick < config.ring_start_tick then false
  else if tick - config.ring_start_tick < 4 then
    cell_outside_rect creature 1 6
  else cell_outside_rect creature 2 5

/-- The hazard damage amount the claims state:
`max(1, floor(max_hp * 0.02))`. -/
def ring_damage_amount (max_hp : ℤ) : ℤ :=
  max 1 (Int.floor ((max_hp : ℚ) * 0.02))

/-- Claim C2's damage pipeline for a non-dodged attack:
`raw = floor(base_dmg * attack_multiplier)`; armor subtracts
`min(flat_armor, floor(raw * 0.5))`, floored at 1; the jitter is
applied and the product floored; final floor at 1. -/
def claim_damage (base_dmg : ℤ) (attack_multiplier : ℚ) (flat_armor : ℤ)
    (eps : ℚ) : ℤ :=
  let raw : ℤ := Int.floor ((base_dmg : ℚ) * attack_multiplier)
  let mitigated := max 1 (raw - min flat_armor (Int.floor ((raw : ℚ) * 0.5)))
  max 1 (Int.floor ((mitigated : ℚ) * (1 + eps)))

/-- The dodge condition of `calculate_physical_damage`: single-target,
dodge not ignored, positive effective dodge, and the seeded roll under
the dodge probability. -/
def dodged_cond (target : Creature) (dodge_seed : ℕ)
    (is_single_target ignore_dodge : Bool) (effective_dodge : Option ℚ) :
    Prop :=
  let dodge := effective_dodge.getD target.dodge_chance
  is_single_target ∧ ¬ ignore_dodge ∧ dodge > 0 ∧
    seeded_random dodge_seed 0 1 < dodge

instance (target : Creature) (ds : ℕ) (ist ign : Bool) (ed : Option ℚ) :
    Decidable (dodged_cond target ds ist ign ed) := by
  unfold dodged_cond; infer_instance

/-- Claim C8's fury-side bonus: 1.5 while the fury window of the
`FURY_PROTOCOL` passive is active, else 1. -/
def fury_bonus (c : Creature) : ℚ :=
  if c.passive = .FURY_PROTOCOL ∧ c.fury_active_ticks > 0 then 1.5 else 1

/-- Claim C8's rage-side bonus: the largest Berserker Rage buff bonus
(`1 + 0.60 * scale`, scale 0.75 for a mimic copy), 1 when none. -/
def rage_bonus (c : Creature) : ℚ :=
  c.active_buffs.foldl (fun m buff =>
    if buff.ability_type = .BERSERKER_RAGE then
      max m (1 + 0.60 * (if buff.is_mimic_copy then (0.75 : ℚ) else 1))
    else m) 1

/-- Claim C8: the fury/rage contribution is the max of the two
bonuses, never their product. -/
def fury_rage_factor (c : Creature) : ℚ := max (fury_bonus c) (rage_bonus c)

/-- The remaining attack-passive multipliers (charge, ambush wiring,
execute), in terms of the original attacker and defender. -/
def other_attack_factor (att d : Creature) : ℚ :=
  (if att.passive = .CHARGE ∧ ¬ att.charge_used then (1.5 : ℚ) else 1) *
  (if att.passive = .AMBUSH_WIRING ∧ ¬ att.charge_used ∧
      att.stats.spd > d.stats.spd then (2 : ℚ) else 1) *
  (if att.has_execute ∧ (d.current_hp : ℚ) < (d.max_hp : ℚ) * 0.25 then
     (2 : ℚ) else 1)

/-- The Berserker-Rage fold of `_apply_attack_passives`. -/
def rage_fold (l : List AbilityBuff) (i : ℚ) : ℚ :=
  l.foldl (fun m buff =>
    if buff.ability_type = .BERSERKER_RAGE then
      max m (1 + 0.60 * (if buff.is_mimic_copy then (0.75 : ℚ) else 1))
    else m) i

/-! ## Concrete probe values used by witnesses and counterexamples -/

/-- A minimal 1×1 creature anchored at row 1, col 1. -/
def ringProbe : Creature :=
  { animal := .BEAR, stats := ⟨5, 5, 5, 5⟩, passive := .FURY_PROTOCOL,
    current_hp := 10, max_hp := 10, base_dmg := 2, armor_flat := 0,
    size := ⟨1, 1⟩, position := ⟨1, 1⟩ }

/-- A creature well inside every safe rectangle. -/
def centerProbe : Creature :=
  { animal := .WOLF, stats := ⟨5, 5, 5, 5⟩, passive := .PACK_SENSE,
    current_hp := 40, max_hp := 60, base_dmg := 6, armor_flat := 2,
    size := ⟨1, 1⟩, position := ⟨3, 3⟩ }

/-- A Monkey about to apply Mimic. -/
def mimicUser : Creature :=
  { animal := .MONKEY, stats := ⟨5, 5, 5, 5⟩, passive := .PRIMATE_CORTEX,
    current_hp := 50, max_hp := 50, base_dmg := 6, armor_flat := 0,
    size := ⟨1, 1⟩, position := ⟨3, 3⟩ }

/-- A Raven opponent whose last procced ability was its single-charge
Shadow Clone. -/
def mimicTarget : Creature :=
  { animal := .RAVEN, stats := ⟨5, 5, 5, 5⟩, passive := .OMEN,
    current_hp := 50, max_hp := 50, base_dmg := 6, armor_flat := 0,
    size := ⟨1, 1⟩, position := ⟨5, 5⟩,
    last_ability_procced := some .SHADOW_CLONE, objId := 1 }

/-- Buffalo's Iron Will ability definition. -/
def ironWillAb : Ability := ⟨"Iron Will", .IRON_WILL, STRONG_RATE, 0, true, .BUFFALO⟩

/-- Bear's Last Stand ability definition. -/
def lastStandAb : Ability := ⟨"Last Stand", .LAST_STAND, STRONG_RATE, 0, true, .BEAR⟩

/-- A Buffalo that already consumed its Iron Will charge. -/
def usedIron : Creature :=
  { animal := .BUFFALO, stats := ⟨8, 6, 4, 2⟩, passive := .THICK_HIDE,
    current_hp := 60, max_hp := 130, base_dmg := 7, armor_flat := 0,
    size := ⟨2, 2⟩, position := ⟨6, 3⟩, abilities := animalAbilities .BUFFALO,
    iron_will_used := true }

/-- A creature eligible for second wind: alive below 30% of max HP. -/
def swProbe : Creature :=
  { animal := .WOLF, stats := ⟨5, 5, 5, 5⟩, passive := .PACK_SENSE,
    current_hp := 10, max_hp := 60, base_dmg := 6, armor_flat := 0,
    size := ⟨1, 1⟩, position := ⟨3, 3⟩, second_wind_available := true }

/-- A creature flagged with the (inert) regeneration passive. -/
def regenProbe : Creature :=
  { animal := .SHARK, stats := ⟨5, 5, 5, 5⟩, passive := .BLOOD_FRENZY,
    current_hp := 30, max_hp := 60, base_dmg := 6, armor_flat := 0,
    size := ⟨1, 1⟩, position := ⟨4, 4⟩, has_regeneration := true, objId := 1 }

/-- A Bear that already consumed its Last Stand charge. -/
def usedStand : Creature :=
  { animal := .BEAR, stats := ⟨3, 14, 2, 1⟩, passive := .FURY_PROTOCOL,
    current_hp := 8, max_hp := 80, base_dmg := 13, armor_flat := 0,
    size := ⟨3, 2⟩, position := ⟨0, 2⟩, abilities := animalAbilities .BEAR,
    last_stand_used := true, objId := 1 }

/-! ## Helper lemmas -/

lemma bytesBE_mem_lt {k n b : ℕ} (h : b ∈ bytesBE k n) : b < 256 := by
  simp only [bytesBE, List.mem_map, List.mem_range] at h
  obtain ⟨i, -, rfl⟩ := h
  exact Nat.mod_lt _ (by norm_num)

lemma sha256_mem_lt {msg : List ℕ} {b : ℕ} (h : b ∈ sha256 msg) : b < 256 := by
  simp only [sha256, List.mem_flatMap] at h
  obtain ⟨wd, -, hb⟩ := h
  exact bytesBE_mem_lt hb

lemma foldl_be_lt : ∀ (l : List ℕ), (∀ x ∈ l, x < 256) → ∀ (acc : ℕ),
    l.foldl (fun a b => a * 256 + b) acc < (acc + 1) * 256 ^ l.length := by
  intro l
  induction l with
  | nil => intro _ acc; simp
  | cons b t ih =>
    intro h acc
    have hb : b < 256 := h b (List.mem_cons_self _ _)
    have ht := ih (fun x hx => h x (List.mem_cons_of_mem _ hx)) (acc * 256 + b)
    have hle : (acc * 256 + b + 1) * 256 ^ t.length ≤
        (acc + 1) * 256 ^ (t.length + 1) := by
      have h1 : acc * 256 + b + 1 ≤ (acc + 1) * 256 := by nlinarith
      calc (acc * 256 + b + 1) * 256 ^ t.length
          ≤ (acc + 1) * 256 * 256 ^ t.length :=
            Nat.mul_le_mul_right _ h1
        _ = (acc + 1) * 256 ^ (t.length + 1) := by ring
    calc (b :: t).foldl (fun a b => a * 256 + b) acc
        = t.foldl (fun a b => a * 256 + b) (acc * 256 + b) := rfl
      _ < (acc * 256 + b + 1) * 256 ^ t.length := ht
      _ ≤ (acc + 1) * 256 ^ (t.length + 1) := hle

lemma firstBytesBE_lt (k : ℕ) (l : List ℕ) (h : ∀ x ∈ l, x < 256) :
    firstBytesBE k l < 256 ^ k := by
  have hmem : ∀ x ∈ l.take k, x < 256 := fun x hx => h x (List.mem_of_mem_take hx)
  have := foldl_be_lt (l.take k) hmem 0
  have hlen : (l.take k).length ≤ k := by
    simp [List.length_take]
  calc firstBytesBE k l < (0 + 1) * 256 ^ (l.take k).length := this
    _ = 256 ^ (l.take k).length := by ring
    _ ≤ 256 ^ k := Nat.pow_le_pow_right (by norm_num) hlen

/-- Unfolding equation for `seeded_random`. -/
lemma seeded_random_eq (seed : ℕ) (lo hi : ℚ) :
    seeded_random seed lo hi =
      lo + (firstBytesBE 8 (sha256 (bytesBE 4 (seed % 2 ^ 32))) : ℚ) / 2 ^ 64 *
        (hi - lo) := rfl

/-- The normalized digest value of `seeded_random` lies in `[0, 1)`,
so the scaled value lies in `[min_val, max_val)` whenever
`min_val < max_val`. -/
lemma seeded_random_bounds (seed : ℕ) (lo hi : ℚ) (hlt : lo < hi) :
    lo ≤ seeded_random seed lo hi ∧ seeded_random seed lo hi < hi := by
  rw [seeded_random_eq]
  set raw := firstBytesBE 8 (sha256 (bytesBE 4 (seed % 2 ^ 32))) with hraw
  have h1 : raw < 256 ^ 8 :=
    firstBytesBE_lt 8 _ (fun x hx => sha256_mem_lt hx)
  have h0 : (0 : ℚ) ≤ (raw : ℚ) / 2 ^ 64 := by positivity
  have h2 : (raw : ℚ) / 2 ^ 64 < 1 := by
    rw [div_lt_one (by positivity)]
    have hc : ((raw : ℚ)) < ((256 ^ 8 : ℕ) : ℚ) := by exact_mod_cast h1
    calc (raw : ℚ) < ((256 ^ 8 : ℕ) : ℚ) := hc
      _ = 2 ^ 64 := by norm_num
  have hfac : (0 : ℚ) < hi - lo := sub_pos.mpr hlt
  have hmul0 : 0 ≤ (raw : ℚ) / 2 ^ 64 * (hi - lo) := mul_nonneg h0 hfac.le
  have hmul1 : (raw : ℚ) / 2 ^ 64 * (hi - lo) < 1 * (hi - lo) :=
    mul_lt_mul_of_pos_right h2 hfac
  constructor
  · linarith
  · linarith

/-! ## Claim theorems -/

/-- C1: `run_combat` is a pure function of the two creatures, the
match seed and the configuration: two runs with identical inputs
return identical results — the same winner, tick count, end condition,
final HP values, seed and full ordered event log. -/
theorem run_combat_deterministic (ca cb : Creature) (match_seed : ℕ)
    (config : Option CombatConfig) :
    run_combat ca cb match_seed config = run_combat ca cb match_seed config ∧
    (run_combat ca cb match_seed config).map (·.winner) =
      (run_combat ca cb match_seed config).map (·.winner) ∧
    (run_combat ca cb match_seed config).map (·.ticks) =
      (run_combat ca cb match_seed config).map (·.ticks) ∧
    (run_combat ca cb match_seed config).map (·.end_condition) =
      (run_combat ca cb match_seed config).map (·.end_condition) ∧
    (run_combat ca cb match_seed config).map (·.final_hp_a) =
      (run_combat ca cb match_seed config).map (·.final_hp_a) ∧
    (run_combat ca cb match_seed config).map (·.final_hp_b) =
      (run_combat ca cb match_seed config).map (·.final_hp_b) ∧
    (run_combat ca cb match_seed config).map (·.log) =
      (run_combat ca cb match_seed config).map (·.log) :=
  ⟨rfl, rfl, rfl, rfl, rfl, rfl, rfl⟩

/-- C9: constructing a `StatBlock` (and validating a parsed build)
succeeds exactly when every stat is at least 1 and the four stats sum
to 20; otherwise it fails with an error and produces no value. -/
theorem statblock_validation (hp atk spd wil : ℤ) :
    ((∃ sb, StatBlock.create hp atk spd wil = .ok sb) ↔
      (1 ≤ hp ∧ 1 ≤ atk ∧ 1 ≤ spd ∧ 1 ≤ wil ∧ hp + atk + spd + wil = 20)) ∧
    ((∃ v, _parse_build_validate hp atk spd wil = .ok v) ↔
      (1 ≤ hp ∧ 1 ≤ atk ∧ 1 ≤ spd ∧ 1 ≤ wil ∧ hp + atk + spd + wil = 20)) := by
  constructor
  · unfold StatBlock.create
    split_ifs <;> simp <;> omega
  · unfold _parse_build_validate
    split_ifs <;> simp <;> omega

/-- C9 witness: the sample build 3/14/2/1 validates, and 0/5/5/10
(sum 20 but a stat below 1) is rejected. -/
theorem statblock_validation_witness :
    (∃ sb, StatBlock.create 3 14 2 1 = .ok sb) ∧
    ¬ (∃ sb, StatBlock.create 0 5 5 10 = .ok sb) :=
  ⟨(statblock_validation 3 14 2 1).1.mpr (by norm_num),
   fun h => by
     have := (statblock_validation 0 5 5 10).1.mp h
     omega⟩

/-- C3 counterexample: at tick 34 — the fifth hazard tick, offset 4 —
the engine still uses the larger safe rectangle, while the claim's
"exactly the first 4 ticks" rule already selects the smaller one: the
creature anchored at row 1 is safe for the engine but out of bounds
for the claim. -/
theorem ring_rect_fifth_tick_counterexample :
    _is_in_ring ringProbe 34 {} = false ∧
    _is_in_ring_claim ringProbe 34 {} = true := by
  constructor <;> rfl

/-- C3 amended: for every tick at or after the hazard start tick, the
larger safe rectangle (1..6) is used for exactly the first FIVE ticks
of the hazard (offsets 0..4), and the smaller fixed rectangle (2..5)
on every hazard tick thereafter. -/
theorem ring_rect_selection (c : Creature) (tick : ℕ) (cfg : CombatConfig)
    (h : cfg.ring_start_tick ≤ tick) :
    _is_in_ring c tick cfg =
      (if tick - cfg.ring_start_tick ≤ 4 then cell_outside_rect c 1 6
       else cell_outside_rect c 2 5) := by
  unfold _is_in_ring cell_outside_rect
  rw [if_neg (by omega)]
  by_cases h4 : tick - cfg.ring_start_tick ≤ 4 <;> simp [h4]

/-- C3 witness: concrete rectangle selections at hazard offsets 4 and
10 with the default configuration. -/
theorem ring_rect_selection_witness :
    _is_in_ring ringProbe 34 {} = cell_outside_rect ringProbe 1 6 ∧
    _is_in_ring ringProbe 40 {} = cell_outside_rect ringProbe 2 5 := by
  constructor
  · have := ring_rect_selection ringProbe 34 {} (by norm_num)
    simpa using this
  · have := ring_rect_selection ringProbe 40 {} (by norm_num)
    simpa using this

/-- C7: before the hazard start tick the hazard changes nothing and
logs nothing; from the start tick on, a creature with a footprint cell
outside the safe rectangle loses exactly `max(1, floor(max_hp*0.02))`
HP that tick, and a `ring_damage` event for it is logged. -/
theorem ring_damage_spec (a b : Creature) (tick : ℕ) (cfg : CombatConfig)
    (events : List Event) :
    (tick < cfg.ring_start_tick →
      _apply_ring_damage a b tick cfg events = (a, b, events)) ∧
    (cfg.ring_start_tick ≤ tick → _is_in_ring a tick cfg = true →
      (_apply_ring_damage a b tick cfg events).1.current_hp =
        a.current_hp - ring_damage_amount a.max_hp ∧
      Event.ring_damage .a (ring_damage_amount a.max_hp)
          (a.current_hp - ring_damage_amount a.max_hp) ∈
        (_apply_ring_damage a b tick cfg events).2.2) ∧
    (cfg.ring_start_tick ≤ tick → _is_in_ring b tick cfg = true →
      (_apply_ring_damage a b tick cfg events).2.1.current_hp =
        b.current_hp - ring_damage_amount b.max_hp ∧
      Event.ring_damage .b (ring_damage_amount b.max_hp)
          (b.current_hp - ring_damage_amount b.max_hp) ∈
        (_apply_ring_damage a b tick cfg events).2.2) := by
  refine ⟨fun h => ?_, fun h ha => ?_, fun h hb => ?_⟩
  · unfold _apply_ring_damage
    rw [if_pos h]
  · unfold _apply_ring_damage _get_ring_damage ring_damage_amount
    rw [if_neg (by omega)]
    simp only [ha, if_true, if_neg (by omega : ¬ tick < cfg.ring_start_tick),
      bump]
    by_cases hb : _is_in_ring b tick cfg = true <;> simp [hb, bump]
  · unfold _apply_ring_damage _get_ring_damage ring_damage_amount
    rw [if_neg (by omega)]
    simp only [hb, if_true, if_neg (by omega : ¬ tick < cfg.ring_start_tick),
      bump]
    by_cases ha : _is_in_ring a tick cfg = true <;> simp [ha, bump]

/-- C7 witness: with the default configuration, at tick 5 nothing
happens, and at tick 40 the probe at row 1 (outside the shrunken
rectangle) loses `max(1, floor(10 * 0.02)) = 1` HP, with the event
logged. -/
theorem ring_damage_spec_witness :
    _apply_ring_damage ringProbe centerProbe 5 {} [] =
      (ringProbe, centerProbe, []) ∧
    (_apply_ring_damage ringProbe centerProbe 40 {} []).1.current_hp =
      ringProbe.current_hp - ring_damage_amount ringProbe.max_hp ∧
    Event.ring_damage .a (ring_damage_amount ringProbe.max_hp)
        (ringProbe.current_hp - ring_damage_amount ringProbe.max_hp) ∈
      (_apply_ring_damage ringProbe centerProbe 40 {} []).2.2 :=
  ⟨(ring_damage_spec ringProbe centerProbe 5 {} []).1 (by norm_num),
   ((ring_damage_spec ringProbe centerProbe 40 {} []).2.1 (by norm_num)
     (by rfl)).1,
   ((ring_damage_spec ringProbe centerProbe 40 {} []).2.1 (by norm_num)
     (by rfl)).2⟩

/-- C5: per-tick initiative is `speed + uniform(0, 0.49)` with the
uniform jitter seeded by the tick seed plus `7919 *` the side index and
lying in `[0, 0.49)`; the side with the strictly higher initiative
acts first, and an exact tie favors side "a". -/
theorem initiative_and_turn_order :
    (∀ (spd : ℤ) (tick_seed creature_index : ℕ),
      calculate_initiative spd tick_seed creature_index =
        (spd : ℚ) + seeded_random (tick_seed + creature_index * 7919) 0 0.49 ∧
      0 ≤ seeded_random (tick_seed + creature_index * 7919) 0 0.49 ∧
      seeded_random (tick_seed + creature_index * 7919) 0 0.49 < 0.49) ∧
    (∀ init_a init_b : ℚ,
      (init_b < init_a → turn_order_of init_a init_b = [.a, .b]) ∧
      (init_a < init_b → turn_order_of init_a init_b = [.b, .a]) ∧
      (init_a = init_b → turn_order_of init_a init_b = [.a, .b])) := by
  constructor
  · intro spd ts ci
    refine ⟨rfl, ?_, ?_⟩
    · exact (seeded_random_bounds _ 0 0.49 (by norm_num)).1
    · exact (seeded_random_bounds _ 0 0.49 (by norm_num)).2
  · intro ia ib
    refine ⟨fun h => ?_, fun h => ?_, fun h => ?_⟩ <;> unfold turn_order_of
    · rw [if_pos (le_of_lt h)]
    · rw [if_neg (not_le.mpr h)]
    · rw [if_pos (le_of_eq h.symm)]

/-- C5 witness: concrete turn-order selections for a strictly higher
"a", a strictly higher "b", and an exact tie. -/
theorem initiative_turn_order_witness :
    turn_order_of 5 3 = [Side.a, Side.b] ∧
    turn_order_of 3 5 = [Side.b, Side.a] ∧
    turn_order_of 4 4 = [Side.a, Side.b] :=
  ⟨(initiative_and_turn_order.2 5 3).1 (by norm_num),
   (initiative_and_turn_order.2 3 5).2.1 (by norm_num),
   (initiative_and_turn_order.2 4 4).2.2 rfl⟩

/-- C2: a dodged attack deals exactly 0; a non-dodged attack deals
exactly the claimed pipeline value — raw damage, armor mitigation
capped at half, a floor of 1, the seeded ±5% jitter floored, and a
final floor of 1 — hence always at least 1 damage. -/
theorem physical_damage_spec (attacker target : Creature)
    (hit_seed dodge_seed : ℕ) (ability_mod : ℚ) (ist ign : Bool)
    (ed : Option ℚ) :
    (dodged_cond target dodge_seed ist ign ed →
      calculate_physical_damage attacker target hit_seed dodge_seed
        ability_mod ist ign ed = 0) ∧
    (¬ dodged_cond target dodge_seed ist ign ed →
      calculate_physical_damage attacker target hit_seed dodge_seed
          ability_mod ist ign ed =
        claim_damage attacker.base_dmg ability_mod target.armor_flat
          (seeded_random (hit_seed + 1) (-0.05) 0.05) ∧
      1 ≤ calculate_physical_damage attacker target hit_seed dodge_seed
          ability_mod ist ign ed) := by
  constructor
  · intro h
    unfold calculate_physical_damage
    dsimp only
    split_ifs with hc
    · rfl
    · exact absurd h hc
  · intro hn
    unfold calculate_physical_damage
    dsimp only
    split_ifs with hc
    · exact absurd hc hn
    · exact ⟨rfl, le_max_left _ _⟩

/-- C2 witness: with a forced effective dodge of 2 the roll always
dodges and the damage is 0; with `is_single_target = false` no dodge
happens and the damage is at least 1. -/
theorem physical_damage_spec_witness :
    calculate_physical_damage centerProbe ringProbe 0 0 1 true false
      (some 2) = 0 ∧
    1 ≤ calculate_physical_damage centerProbe ringProbe 0 0 1 false false
      none :=
  ⟨(physical_damage_spec centerProbe ringProbe 0 0 1 true false (some 2)).1
    (by
      unfold dodged_cond
      refine ⟨rfl, by simp, by norm_num, ?_⟩
      have h := (seeded_random_bounds 0 0 1 (by norm_num)).2
      simp only [Option.getD_some]
      linarith),
   ((physical_damage_spec centerProbe ringProbe 0 0 1 false false none).2
    (by simp [dodged_cond])).2⟩

lemma rage_fold_ge (l : List AbilityBuff) : ∀ i : ℚ, i ≤ rage_fold l i := by
  induction l with
  | nil => intro i; exact le_refl i
  | cons b t ih =>
    intro i
    unfold rage_fold
    by_cases hB : b.ability_type = .BERSERKER_RAGE
    · simp only [List.foldl_cons, hB, if_true]
      exact le_trans (le_max_left _ _) (ih _)
    · simp only [List.foldl_cons, hB, if_false]
      exact ih i

lemma rage_fold_init (l : List AbilityBuff) :
    ∀ i : ℚ, 1 ≤ i → rage_fold l i = max i (rage_fold l 1) := by
  induction l with
  | nil =>
    intro i hi
    unfold rage_fold
    simp [max_eq_left hi]
  | cons b t ih =>
    intro i hi
    by_cases hB : b.ability_type = .BERSERKER_RAGE
    · have hg : (1 : ℚ) ≤ 1 + 0.60 * (if b.is_mimic_copy then (0.75 : ℚ) else 1) := by
        split_ifs <;> norm_num
      have hl : rage_fold (b :: t) i =
          rage_fold t (max i (1 + 0.60 * (if b.is_mimic_copy then (0.75 : ℚ) else 1))) := by
        unfold rage_fold
        simp [hB]
      have hr : rage_fold (b :: t) 1 =
          rage_fold t (max 1 (1 + 0.60 * (if b.is_mimic_copy then (0.75 : ℚ) else 1))) := by
        unfold rage_fold
        simp [hB]
      rw [hl, hr, ih _ (le_trans hi (le_max_left _ _)),
        ih _ (le_max_left 1 _), max_eq_right hg]
      exact max_assoc _ _ _
    · have hl : rage_fold (b :: t) i = rage_fold t i := by
        unfold rage_fold; simp [hB]
      have hr : rage_fold (b :: t) 1 = rage_fold t 1 := by
        unfold rage_fold; simp [hB]
      rw [hl, hr, ih i hi]

lemma fury_bonus_ge_one (c : Creature) : 1 ≤ fury_bonus c := by
  unfold fury_bonus; split_ifs <;> norm_num

lemma rage_bonus_ge_one (c : Creature) : 1 ≤ rage_bonus c :=
  rage_fold_ge c.active_buffs 1

lemma fury_rage_factor_ge_one (c : Creature) : 1 ≤ fury_rage_factor c :=
  le_trans (fury_bonus_ge_one c) (le_max_left _ _)

/-- C8: the fury passive's +50% and a Berserker Rage buff's +60%
(scaled for a mimic copy) never stack: the attack multiplier gains the
maximum of the two bonuses (a factor of 1 — nothing — when neither
applies), independently of the other attack passives. -/
theorem fury_rage_no_stack (att d : Creature) (m : ℚ) (s : Side)
    (x y : Creature) :
    (_apply_attack_passives att d m s x y).2 =
      m * fury_rage_factor att * other_attack_factor att d ∧
    fury_rage_factor att = max (fury_bonus att) (rage_bonus att) ∧
    (fury_bonus att = 1 ∧ rage_bonus att = 1 → fury_rage_factor att = 1) := by
  refine ⟨?_, rfl, ?_⟩
  · have hF : att.active_buffs.foldl (fun m buff =>
        if buff.ability_type = .BERSERKER_RAGE then
          max m (1 + 0.60 * (if buff.is_mimic_copy then (0.75 : ℚ) else 1))
        else m)
        (if att.passive = .FURY_PROTOCOL ∧ att.fury_active_ticks > 0 then
          (1.5 : ℚ) else 1) = fury_rage_factor att := by
      rw [show (if att.passive = .FURY_PROTOCOL ∧ att.fury_active_ticks > 0
            then (1.5 : ℚ) else 1) = fury_bonus att from rfl]
      exact rage_fold_init att.active_buffs (fury_bonus att)
        (fury_bonus_ge_one att)
    have hstage1 : ∀ mm : ℚ,
        (if fury_rage_factor att > 1 then mm * fury_rage_factor att else mm) =
          mm * fury_rage_factor att := by
      intro mm
      split_ifs with h1
      · rfl
      · have h := le_antisymm (not_lt.mp h1) (fury_rage_factor_ge_one att)
        rw [h, mul_one]
    unfold _apply_attack_passives other_attack_factor
    dsimp only
    rw [hF, hstage1 m]
    split_ifs <;> simp_all [bump] <;> ring
  · rintro ⟨h1, h2⟩
    unfold fury_rage_factor
    rw [h1, h2, max_self]

lemma apply_mimic_iron (c o : Creature) (s : Side) (ps : ℕ) :
    (_apply_mimic c o s ps).1.iron_will_used = c.iron_will_used := by
  unfold _apply_mimic
  cases o.last_ability_procced with
  | none => rfl
  | some t =>
    dsimp only
    split_ifs
    all_goals try rfl
    all_goals cases ((ANIMAL_ABILITIES.flatMap (fun e => [e.2.1, e.2.2])).find?
      (fun ab => ab.ability_type = t)) <;> simp [bump]

lemma apply_mimic_last (c o : Creature) (s : Side) (ps : ℕ) :
    (_apply_mimic c o s ps).1.last_stand_used = c.last_stand_used := by
  unfold _apply_mimic
  cases o.last_ability_procced with
  | none => rfl
  | some t =>
    dsimp only
    split_ifs
    all_goals try rfl
    all_goals cases ((ANIMAL_ABILITIES.flatMap (fun e => [e.2.1, e.2.2])).find?
      (fun ab => ab.ability_type = t)) <;> simp [bump]

set_option maxHeartbeats 2000000 in
lemma apply_proc_sets_iron (c o : Creature) (ab : Ability) (s : Side)
    (ev : List Event) (ps : ℕ) (hsc : ab.is_single_charge = true)
    (ht : ab.ability_type = .IRON_WILL) :
    (_apply_ability_proc c o ab s ev ps).1.iron_will_used = true := by
  obtain ⟨nm, atype, pc, dur, sc, an⟩ := ab
  dsimp only at hsc ht
  subst ht
  subst hsc
  rfl

set_option maxHeartbeats 2000000 in
lemma apply_proc_sets_last (c o : Creature) (ab : Ability) (s : Side)
    (ev : List Event) (ps : ℕ) (hsc : ab.is_single_charge = true)
    (ht : ab.ability_type = .LAST_STAND) :
    (_apply_ability_proc c o ab s ev ps).1.last_stand_used = true := by
  obtain ⟨nm, atype, pc, dur, sc, an⟩ := ab
  dsimp only at hsc ht
  subst ht
  subst hsc
  rfl

set_option maxHeartbeats 2000000 in
lemma apply_proc_iron_mono (c o : Creature) (ab : Ability) (s : Side)
    (ev : List Event) (ps : ℕ) (h : c.iron_will_used = true) :
    (_apply_ability_proc c o ab s ev ps).1.iron_will_used = true := by
  obtain ⟨nm, atype, pc, dur, sc, an⟩ := ab
  cases atype <;> cases sc <;>
    first
      | exact h
      | rfl
      | exact (apply_mimic_iron c o s ps).trans h
      | (by_cases hv : (o.active_effects.filter
            (fun e => e.name = "ability_venom")).length < 3 <;>
          simp [_apply_ability_proc, hv, bump, h])

set_option maxHeartbeats 2000000 in
lemma apply_proc_last_mono (c o : Creature) (ab : Ability) (s : Side)
    (ev : List Event) (ps : ℕ) (h : c.last_stand_used = true) :
    (_apply_ability_proc c o ab s ev ps).1.last_stand_used = true := by
  obtain ⟨nm, atype, pc, dur, sc, an⟩ := ab
  cases atype <;> cases sc <;>
    first
      | exact h
      | rfl
      | exact (apply_mimic_last c o s ps).trans h
      | (by_cases hv : (o.active_effects.filter
            (fun e => e.name = "ability_venom")).length < 3 <;>
          simp [_apply_ability_proc, hv, bump, h])

lemma proc_step_iron_mono (ms tk ci : ℕ) (s : Side) (st : ProcState)
    (iab : ℕ × Ability) (h : st.creature.iron_will_used = true) :
    (proc_step ms tk ci s st iab).creature.iron_will_used = true := by
  unfold proc_step
  dsimp only
  split_ifs
  all_goals try exact h
  all_goals cases hf : _find_trick_buff_index st.opponent
  all_goals dsimp only
  · exact apply_proc_iron_mono st.creature st.opponent iab.2 s
      st.events (derive_proc_seed ms tk ci iab.1) h
  · exact h

lemma proc_step_last_mono (ms tk ci : ℕ) (s : Side) (st : ProcState)
    (iab : ℕ × Ability) (h : st.creature.last_stand_used = true) :
    (proc_step ms tk ci s st iab).creature.last_stand_used = true := by
  unfold proc_step
  dsimp only
  split_ifs
  all_goals try exact h
  all_goals cases hf : _find_trick_buff_index st.opponent
  all_goals dsimp only
  · exact apply_proc_last_mono st.creature st.opponent iab.2 s
      st.events (derive_proc_seed ms tk ci iab.1) h
  · exact h

lemma foldl_proc_iron_mono (ms tk ci : ℕ) (s : Side) :
    ∀ (l : List (ℕ × Ability)) (st : ProcState),
      st.creature.iron_will_used = true →
      (l.foldl (proc_step ms tk ci s) st).creature.iron_will_used = true := by
  intro l
  induction l with
  | nil => intro st h; exact h
  | cons x t ih =>
    intro st h
    exact ih _ (proc_step_iron_mono ms tk ci s st x h)

lemma foldl_proc_last_mono (ms tk ci : ℕ) (s : Side) :
    ∀ (l : List (ℕ × Ability)) (st : ProcState),
      st.creature.last_stand_used = true →
      (l.foldl (proc_step ms tk ci s) st).creature.last_stand_used = true := by
  intro l
  induction l with
  | nil => intro st h; exact h
  | cons x t ih =>
    intro st h
    exact ih _ (proc_step_last_mono ms tk ci s st x h)

lemma roll_iron_mono (c o : Creature) (ms tk ci : ℕ) (s : Side)
    (ev : List Event) (h : c.iron_will_used = true) :
    (roll_ability_procs c o ms tk ci s ev).1.iron_will_used = true := by
  unfold roll_ability_procs
  have hfold := foldl_proc_iron_mono ms tk ci s c.abilities.enum
    ⟨c, o, ev, none⟩ h
  cases hlp : (c.abilities.enum.foldl (proc_step ms tk ci s)
      ⟨c, o, ev, none⟩).last_procced <;>
    simp [hlp, bump, hfold]

lemma roll_last_mono (c o : Creature) (ms tk ci : ℕ) (s : Side)
    (ev : List Event) (h : c.last_stand_used = true) :
    (roll_ability_procs c o ms tk ci s ev).1.last_stand_used = true := by
  unfold roll_ability_procs
  have hfold := foldl_proc_last_mono ms tk ci s c.abilities.enum
    ⟨c, o, ev, none⟩ h
  cases hlp : (c.abilities.enum.foldl (proc_step ms tk ci s)
      ⟨c, o, ev, none⟩).last_procced <;>
    simp [hlp, bump, hfold]

/-- C6: the single-charge abilities Iron Will and Last Stand fire at
most once per creature per match: applying the proc sets the
corresponding used-flag; once the flag is set, the proc loop skips the
ability entirely (the whole loop state is unchanged), and no step of
the proc system ever clears a set flag. -/
theorem single_charge_fire_once (match_seed tick creature_index : ℕ)
    (side : Side) (st : ProcState) (i : ℕ) (ab : Ability) :
    (ab.is_single_charge = true → ab.ability_type = .IRON_WILL →
      st.creature.iron_will_used = true →
      proc_step match_seed tick creature_index side st (i, ab) = st) ∧
    (ab.is_single_charge = true → ab.ability_type = .LAST_STAND →
      st.creature.last_stand_used = true →
      proc_step match_seed tick creature_index side st (i, ab) = st) ∧
    (ab.is_single_charge = true → ab.ability_type = .IRON_WILL →
      ∀ (c o : Creature) (ev : List Event) (ps : ℕ),
        (_apply_ability_proc c o ab side ev ps).1.iron_will_used = true) ∧
    (ab.is_single_charge = true → ab.ability_type = .LAST_STAND →
      ∀ (c o : Creature) (ev : List Event) (ps : ℕ),
        (_apply_ability_proc c o ab side ev ps).1.last_stand_used = true) ∧
    (∀ (c o : Creature) (ev : List Event), c.iron_will_used = true →
      (roll_ability_procs c o match_seed tick creature_index side
        ev).1.iron_will_used = true) ∧
    (∀ (c o : Creature) (ev : List Event), c.last_stand_used = true →
      (roll_ability_procs c o match_seed tick creature_index side
        ev).1.last_stand_used = true) := by
  refine ⟨?_, ?_, ?_, ?_, ?_, ?_⟩
  · intro hsc ht hu
    unfold proc_step
    dsimp only
    rw [if_pos ⟨hsc, ht, hu⟩]
  · intro hsc ht hu
    unfold proc_step
    dsimp only
    rw [if_neg (by simp [ht]), if_pos ⟨hsc, ht, hu⟩]
  · intro hsc ht c o ev ps
    exact apply_proc_sets_iron c o ab side ev ps hsc ht
  · intro hsc ht c o ev ps
    exact apply_proc_sets_last c o ab side ev ps hsc ht
  · intro c o ev h
    exact roll_iron_mono c o match_seed tick creature_index side ev h
  · intro c o ev h
    exact roll_last_mono c o match_seed tick creature_index side ev h

/-- C6 witness: with the used-flags already set, the proc loop skips
Iron Will and Last Stand, and the flags survive a whole proc roll. -/
theorem single_charge_fire_once_witness :
    proc_step 7 1 0 .a ⟨usedIron, usedStand, [], none⟩ (1, ironWillAb) =
      ⟨usedIron, usedStand, [], none⟩ ∧
    proc_step 7 1 1 .b ⟨usedStand, usedIron, [], none⟩ (1, lastStandAb) =
      ⟨usedStand, usedIron, [], none⟩ ∧
    (_apply_ability_proc centerProbe ringProbe ironWillAb .a [] 0).1.iron_will_used = true ∧
    (roll_ability_procs usedIron usedStand 7 1 0 .a []).1.iron_will_used = true :=
  ⟨(single_charge_fire_once 7 1 0 .a ⟨usedIron, usedStand, [], none⟩ 1
      ironWillAb).1 rfl rfl rfl,
   (single_charge_fire_once 7 1 1 .b ⟨usedStand, usedIron, [], none⟩ 1
      lastStandAb).2.1 rfl rfl rfl,
   (single_charge_fire_once 0 0 0 .a ⟨usedIron, usedStand, [], none⟩ 0
      ironWillAb).2.2.1 rfl rfl centerProbe ringProbe [] 0,
   (single_charge_fire_once 7 1 0 .a ⟨usedIron, usedStand, [], none⟩ 0
      ironWillAb).2.2.2.2.1 usedIron usedStand [] rfl⟩

lemma apply_mimic_hp (c o : Creature) (s : Side) (ps : ℕ) :
    (_apply_mimic c o s ps).1.current_hp = c.current_hp := by
  unfold _apply_mimic
  cases o.last_ability_procced with
  | none => rfl
  | some t =>
    dsimp only
    split_ifs
    all_goals try rfl
    all_goals cases ((ANIMAL_ABILITIES.flatMap (fun e => [e.2.1, e.2.2])).find?
      (fun ab => ab.ability_type = t)) <;> simp [bump]

lemma apply_mimic_maxhp (c o : Creature) (s : Side) (ps : ℕ) :
    (_apply_mimic c o s ps).1.max_hp = c.max_hp := by
  unfold _apply_mimic
  cases o.last_ability_procced with
  | none => rfl
  | some t =>
    dsimp only
    split_ifs
    all_goals try rfl
    all_goals cases ((ANIMAL_ABILITIES.flatMap (fun e => [e.2.1, e.2.2])).find?
      (fun ab => ab.ability_type = t)) <;> simp [bump]

set_option maxHeartbeats 2000000 in
lemma apply_proc_hp_clamped (c o : Creature) (ab : Ability) (s : Side)
    (ev : List Event) (ps : ℕ) (h : c.current_hp ≤ c.max_hp) :
    (_apply_ability_proc c o ab s ev ps).1.current_hp ≤
      (_apply_ability_proc c o ab s ev ps).1.max_hp := by
  obtain ⟨nm, atype, pc, dur, sc, an⟩ := ab
  cases atype <;> cases sc <;>
    first
      | exact h
      | exact min_le_left _ _
      | exact le_trans (le_of_eq (apply_mimic_hp c o s ps))
          (le_trans h (le_of_eq (apply_mimic_maxhp c o s ps).symm))
      | (by_cases hv : (o.active_effects.filter
            (fun e => e.name = "ability_venom")).length < 3 <;>
          simp [_apply_ability_proc, hv, bump, h])

lemma second_wind_hp_clamped (c : Creature) (s : Side) (ev : List Event)
    (h : c.current_hp ≤ c.max_hp) :
    (_try_second_wind c s ev).1.current_hp ≤
      (_try_second_wind c s ev).1.max_hp := by
  unfold _try_second_wind
  split_ifs
  · exact min_le_left _ _
  · exact h

lemma regen_one_hp_clamped (c : Creature) (s : Side) (ev : List Event)
    (h : c.current_hp ≤ c.max_hp) :
    (_regen_one c s ev).1.current_hp ≤ (_regen_one c s ev).1.max_hp := by
  unfold _regen_one
  dsimp only
  split_ifs <;> dsimp only [bump] <;>
    first
      | exact h
      | exact min_le_left _ _

/-- C10: every healing operation clamps at max HP — the Iron Will
instant heal (inside the ability-proc dispatch), the second-wind heal
and the regeneration step each preserve `current_hp ≤ max_hp`. -/
theorem healing_clamped :
    (∀ (c o : Creature) (ab : Ability) (s : Side) (ev : List Event) (ps : ℕ),
      c.current_hp ≤ c.max_hp →
      (_apply_ability_proc c o ab s ev ps).1.current_hp ≤
        (_apply_ability_proc c o ab s ev ps).1.max_hp) ∧
    (∀ (c : Creature) (s : Side) (ev : List Event),
      c.current_hp ≤ c.max_hp →
      (_try_second_wind c s ev).1.current_hp ≤
        (_try_second_wind c s ev).1.max_hp) ∧
    (∀ (a b : Creature) (ev : List Event),
      a.current_hp ≤ a.max_hp → b.current_hp ≤ b.max_hp →
      (_apply_regeneration a b ev).1.current_hp ≤
        (_apply_regeneration a b ev).1.max_hp ∧
      (_apply_regeneration a b ev).2.1.current_hp ≤
        (_apply_regeneration a b ev).2.1.max_hp) := by
  refine ⟨apply_proc_hp_clamped, second_wind_hp_clamped, ?_⟩
  intro a b ev ha hb
  exact ⟨regen_one_hp_clamped a .a ev ha, regen_one_hp_clamped b .b _ hb⟩

/-- C10 witness: the Iron Will heal on a damaged creature, a
second-wind trigger, and the regeneration step all keep HP at or below
max HP on concrete creatures. -/
theorem healing_clamped_witness :
    (_apply_ability_proc centerProbe ringProbe ironWillAb .a [] 0).1.current_hp ≤
      (_apply_ability_proc centerProbe ringProbe ironWillAb .a [] 0).1.max_hp ∧
    (_try_second_wind swProbe .a []).1.current_hp ≤
      (_try_second_wind swProbe .a []).1.max_hp ∧
    (_apply_regeneration swProbe regenProbe []).2.1.current_hp ≤
      (_apply_regeneration swProbe regenProbe []).2.1.max_hp :=
  ⟨healing_clamped.1 centerProbe ringProbe ironWillAb .a [] 0 (by decide),
   healing_clamped.2.1 swProbe .a [] (by decide),
   (healing_clamped.2.2 swProbe regenProbe [] (by decide) (by decide)).2⟩

/-- C4, evaluated at the failing input: when the opponent's last
procced ability is Raven's Shadow Clone — a single-charge ability
(`is_single_charge = true` in its table entry) that is absent from
`MIMIC_BLOCKED` — `_apply_mimic` does attach a buff whose kind is that
single-charge ability's kind, contradicting the claim.  (The copy-type
kind itself is blocked, as the claim says.) -/
theorem mimic_copies_shadow_clone :
    (_apply_mimic mimicUser mimicTarget .a 0).1.active_buffs =
      [⟨.SHADOW_CLONE, 1, .a, true⟩] ∧
    (animalAbilities .RAVEN).map
        (fun ab => (ab.ability_type, ab.is_single_charge)) =
      [(.SHADOW_CLONE, true), (.CURSE, false)] ∧
    can_mimic .SHADOW_CLONE = true ∧
    can_mimic .MIMIC = false := by
  refine ⟨?_, rfl, rfl, rfl⟩
  rfl

end Arena

